import Mathlib

/-!
Shallow embedding of the query-and-cache core of the fraud-detection
dashboard (src/app.py): the memoized connection factory `init_connection`
(lines 100-117, wrapped by a resource cache that returns the stored handle
without running the body when one is present), the session-scoped holder
`get_connection` (lines 120-132), and the TTL-cached `run_query`
(lines 135-157) together with the refresh action (lines 180-182) and the
Transaction Analysis filter-to-query construction (lines 326-375).

External-library behavior embedded here, following its documented semantics
as the source relies on them: the data cache keyed by the function argument
with a 600-second time-to-live where a non-expired entry is returned without
running the body and a computed value is written to the cache after the body
returns; the resource cache memoizing `init_connection`; and the script-halt
signal raised by the stop call, which is not an ordinary exception and so is
not caught by the body's catch-all handler (modeled as the `Except.error`
branch propagating through `run_query`).

Nondeterminism of the outside world (whether connecting succeeds, whether a
handle's liveness probe succeeds, whether executing a query succeeds and
with what rows) is packaged into an `Env` record of oracles; the mutable
process state (both caches, the session connection slot, the clock, and
instrumentation counters for connect attempts and query executions) is an
explicit `AppState` threaded through every operation.
-/

namespace FraudDashboard

/-- A tabular query result: ordered named columns and rows of values. -/
structure TabularResult where
  columns : List String
  rows : List (List String)
deriving Repr, DecidableEq

/-- The empty result returned on a query failure (a fresh empty DataFrame:
zero columns, zero rows). -/
def emptyResult : TabularResult := ⟨[], []⟩

/-- A database connection handle, identified by creation order. -/
structure Conn where
  id : Nat
deriving Repr, DecidableEq

/-- Oracles for the outside world: whether establishing a connection would
succeed right now, whether a given handle passes the cheap liveness probe,
and whether executing a given query succeeds and with what result. -/
structure Env where
  connectOk : Bool
  probeOk : Conn → Bool
  execOk : String → Bool
  execResult : String → TabularResult

/-- The mutable process state: the data cache (most recent entry for a key
first; each entry is key, value, creation time), the resource cache holding
the memoized connection, the session-state connection slot, the clock, a
fresh-id counter for new handles, instrumentation counters for connection
attempts and query executions, and the user-visible message logs. -/
structure AppState where
  cacheData : List (String × TabularResult × Nat)
  cacheResource : Option Conn
  sessionConn : Option Conn
  now : Nat
  nextConnId : Nat
  connects : Nat
  execs : Nat
  errors : List String
  infos : List String
  shownCode : List String
deriving Repr, DecidableEq

/-- The initial state: both caches empty, no session connection, clock at
zero, nothing attempted and nothing displayed. -/
def initState : AppState :=
  ⟨[], none, none, 0, 0, 0, 0, [], [], []⟩

/-- The time-to-live of a data-cache entry, in seconds (`ttl=600`). -/
def TTL : Nat := 600

/-- A cache entry created at `created` is valid for read at `now` when less
than the time-to-live has elapsed since its creation. -/
def validEntry (now created : Nat) : Bool :=
  now - created < TTL

/-- Data-cache lookup: the most recent entry for the exact key decides; a
present but expired entry is a miss. The key is the literal query string. -/
def cacheLookup (cache : List (String × TabularResult × Nat)) (q : String)
    (now : Nat) : Option TabularResult :=
  match cache with
  | [] => none
  | (k, df, created) :: rest =>
    if k = q then (if validEntry now created then some df else none)
    else cacheLookup rest q now

/-- app.py lines 100-117, together with its resource-cache wrapper: when the
resource cache already holds a connection it is returned without running the
body; otherwise the body attempts to connect. On success the new handle is
stored in the resource cache and returned; on failure an error and an info
message are shown and the script is stopped (`Except.error`), caching
nothing. -/
def init_connection (env : Env) (s : AppState) : Except AppState (Conn × AppState) :=
  match s.cacheResource with
  | some c => .ok (c, s)
  | none =>
    if env.connectOk then
      .ok (⟨s.nextConnId⟩,
        { s with cacheResource := some ⟨s.nextConnId⟩, nextConnId := s.nextConnId + 1,
                 connects := s.connects + 1 })
    else
      .error { s with connects := s.connects + 1,
                      errors := s.errors ++ ["Connection Error"],
                      infos := s.infos ++ ["Please check your Snowflake credentials in .streamlit/secrets.toml"] }

/-- app.py lines 122-123: if the session state has no connection (absent or
set to none), obtain one from `init_connection` and store it in the session
slot. -/
def ensureSessionConn (env : Env) (s : AppState) : Except AppState (Conn × AppState) :=
  match s.sessionConn with
  | some c => .ok (c, s)
  | none =>
    match init_connection env s with
    | .ok (c, s') => .ok (c, { s' with sessionConn := some c })
    | .error s' => .error s'

/-- app.py lines 120-132: ensure a session connection exists, probe its
liveness with a cheap query, and on probe failure call `init_connection`
again (storing its result in the session slot) before returning the session
connection. A script stop raised by a failing `init_connection` propagates. -/
def get_connection (env : Env) (s : AppState) : Except AppState (Conn × AppState) :=
  match ensureSessionConn env s with
  | .error s' => .error s'
  | .ok (c, s1) =>
    if env.probeOk c then .ok (c, s1)
    else
      match init_connection env s1 with
      | .ok (c', s2) => .ok (c', { s2 with sessionConn := some c' })
      | .error s2 => .error s2

/-- app.py lines 138-157, the body of `run_query`: obtain a connection,
execute the query and package columns and rows into a result. Any ordinary
exception from execution is caught: the error and the offending query text
are shown, the whole data cache and the resource cache are cleared, and an
empty result is returned. A script stop from the connection path is not an
ordinary exception and propagates. -/
def run_query_compute (env : Env) (s : AppState) (q : String) :
    Except AppState (TabularResult × AppState) :=
  match get_connection env s with
  | .error s' => .error s'
  | .ok (_, s1) =>
    if env.execOk q then
      .ok (env.execResult q, { s1 with execs := s1.execs + 1 })
    else
      .ok (emptyResult,
        { s1 with execs := s1.execs + 1,
                  errors := s1.errors ++ ["Query Error"],
                  shownCode := s1.shownCode ++ [q],
                  cacheData := [],
                  cacheResource := none })

/-- app.py line 135-157, `run_query` as seen by callers: the data-cache
wrapper returns a non-expired entry for the query string without running the
body; on a miss it runs the body and, when the body returns, writes the
returned value into the data cache under the query string with the current
time. -/
def run_query (env : Env) (s : AppState) (q : String) :
    Except AppState (TabularResult × AppState) :=
  match cacheLookup s.cacheData q s.now with
  | some df => .ok (df, s)
  | none =>
    match run_query_compute env s q with
    | .error s' => .error s'
    | .ok (df, s1) => .ok (df, { s1 with cacheData := (q, df, s1.now) :: s1.cacheData })

/-- app.py lines 180-182: the refresh button clears the whole data cache and
reruns the script. -/
def refresh (s : AppState) : AppState :=
  { s with cacheData := [] }

/-- The clock advancing by `d` seconds between operations. -/
def advance (d : Nat) (s : AppState) : AppState :=
  { s with now := s.now + d }

/-- app.py lines 326-346: the Transaction Analysis filter widgets — a date
range, a minimum-amount slider, and an alert-status selection. -/
structure FilterSpec where
  date_range : Nat × Nat
  amount_filter : Nat
  alert_filter : String
deriving Repr, DecidableEq

/-- app.py lines 349-375: the dynamic transaction query. The template ends
in a minimum-amount comparison whose placeholder is filled with the slider
value, the alert-status selection appends a matching condition, and an order
and limit clause is appended; the date-range widget's value does not occur
in the construction. -/
def transaction_query (f : FilterSpec) : String :=
  let tmpl := "\n    SELECT \n        ft.TXN_ID,\n        ft.TXN_TIMESTAMP,\n        dc.CUSTOMER_ID,\n        dc.RISK_SCORE,\n        da.ACCOUNT_TYPE,\n        ft.AMOUNT,\n        dl.LOCATION,\n        ft.HAS_ALERT,\n        ft.ALERT_COUNT\n    FROM GOLD.FACT_TRANSACTIONS ft\n    JOIN GOLD.DIM_CUSTOMER dc ON ft.CUSTOMER_KEY = dc.CUSTOMER_KEY\n    JOIN GOLD.DIM_ACCOUNT da ON ft.ACCOUNT_KEY = da.ACCOUNT_KEY\n    JOIN GOLD.DIM_LOCATION dl ON ft.LOCATION_KEY = dl.LOCATION_KEY\n    WHERE ft.AMOUNT >= " ++ Nat.repr f.amount_filter ++ "\n    "
  let tmpl := if f.alert_filter = "Flagged Only" then tmpl ++ " AND ft.HAS_ALERT = TRUE"
    else if f.alert_filter = "Clean Only" then tmpl ++ " AND ft.HAS_ALERT = FALSE"
    else tmpl
  tmpl ++ " ORDER BY ft.TXN_TIMESTAMP DESC LIMIT 1000"

/-- One observable operation of the application, from any environment:
obtaining a connection (successfully or halting), running a query
(successfully or halting), pressing refresh, or time passing. -/
inductive Step : AppState → AppState → Prop where
  | getConnOk {s s' : AppState} (env : Env) (c : Conn) :
      get_connection env s = .ok (c, s') → Step s s'
  | getConnHalt {s s' : AppState} (env : Env) :
      get_connection env s = .error s' → Step s s'
  | runQueryOk {s s' : AppState} (env : Env) (q : String) (df : TabularResult) :
      run_query env s q = .ok (df, s') → Step s s'
  | runQueryHalt {s s' : AppState} (env : Env) (q : String) :
      run_query env s q = .error s' → Step s s'
  | refreshStep (s : AppState) : Step s (refresh s)
  | advanceStep (s : AppState) (d : Nat) : Step s (advance d s)

/-- States reachable from the initial state by any sequence of operations. -/
def Reachable (s : AppState) : Prop :=
  Relation.ReflTransGen Step initState s

/-- The connection-holder invariant: the resource cache and the session slot
never hold two distinct connections at once. -/
def holderInv (s : AppState) : Prop :=
  ∀ c1 c2 : Conn, s.cacheResource = some c1 → s.sessionConn = some c2 → c1 = c2

/-! ### Frame and case lemmas for the connection path -/

theorem init_connection_ok (env : Env) (s : AppState) (c : Conn) (s' : AppState)
    (h : init_connection env s = .ok (c, s')) :
    s'.cacheResource = some c ∧ s'.sessionConn = s.sessionConn ∧
    s'.cacheData = s.cacheData ∧ s'.now = s.now ∧ s'.execs = s.execs ∧
    s'.errors = s.errors ∧ s'.shownCode = s.shownCode := by
  unfold init_connection at h
  split at h
  · rename_i c0 hr
    rw [Except.ok.injEq, Prod.mk.injEq] at h
    obtain ⟨hc, hs⟩ := h
    subst hc; subst hs
    exact ⟨hr, rfl, rfl, rfl, rfl, rfl, rfl⟩
  · rename_i hr
    split at h
    · rw [Except.ok.injEq, Prod.mk.injEq] at h
      obtain ⟨hc, hs⟩ := h
      subst hc; subst hs
      simp
    · exact absurd h (by simp)

theorem init_connection_err (env : Env) (s : AppState) (s' : AppState)
    (h : init_connection env s = .error s') :
    s.cacheResource = none ∧ env.connectOk = false ∧
    s'.cacheResource = none ∧ s'.sessionConn = s.sessionConn ∧
    s'.cacheData = s.cacheData ∧ s'.now = s.now ∧ s'.execs = s.execs ∧
    s'.connects = s.connects + 1 ∧
    s'.errors = s.errors ++ ["Connection Error"] := by
  unfold init_connection at h
  split at h
  · exact absurd h (by simp)
  · rename_i hr
    split at h
    · exact absurd h (by simp)
    · rename_i hck
      rw [Except.error.injEq] at h
      subst h
      refine ⟨hr, by simpa using hck, ?_, ?_, ?_, ?_, ?_, ?_, ?_⟩ <;> simp [hr]

theorem ensureSessionConn_ok (env : Env) (s : AppState) (c : Conn) (s' : AppState)
    (h : ensureSessionConn env s = .ok (c, s')) :
    s'.sessionConn = some c ∧ (s' = s ∨ s'.cacheResource = some c) ∧
    s'.cacheData = s.cacheData ∧ s'.now = s.now ∧ s'.execs = s.execs ∧
    s'.errors = s.errors ∧ s'.shownCode = s.shownCode := by
  unfold ensureSessionConn at h
  split at h
  · rename_i c0 hc
    rw [Except.ok.injEq, Prod.mk.injEq] at h
    obtain ⟨hceq, hs⟩ := h
    subst hceq; subst hs
    exact ⟨hc, Or.inl rfl, rfl, rfl, rfl, rfl, rfl⟩
  · rename_i hc
    split at h
    · rename_i c1 s1 hi
      rw [Except.ok.injEq, Prod.mk.injEq] at h
      obtain ⟨hceq, hs⟩ := h
      subst hceq; subst hs
      obtain ⟨i1, i2, i3, i4, i5, i6, i7⟩ := init_connection_ok env s c1 s1 hi
      refine ⟨rfl, Or.inr ?_, ?_, ?_, ?_, ?_, ?_⟩ <;> simp [i1, i3, i4, i5, i6, i7]
    · rename_i s1 hi
      exact absurd h (by simp)

theorem ensureSessionConn_err (env : Env) (s : AppState) (s' : AppState)
    (h : ensureSessionConn env s = .error s') :
    s.cacheResource = none ∧ env.connectOk = false ∧
    s'.cacheResource = none ∧ s'.sessionConn = s.sessionConn ∧
    s'.cacheData = s.cacheData ∧ s'.now = s.now ∧ s'.execs = s.execs ∧
    s'.connects = s.connects + 1 ∧
    s'.errors = s.errors ++ ["Connection Error"] := by
  unfold ensureSessionConn at h
  split at h
  · rename_i c0 hc
    exact absurd h (by simp)
  · rename_i hc
    split at h
    · rename_i c1 s1 hi
      exact absurd h (by simp)
    · rename_i s1 hi
      rw [Except.error.injEq] at h
      subst h
      exact init_connection_err env s s1 hi

theorem get_connection_ok (env : Env) (s : AppState) (c : Conn) (s' : AppState)
    (h : get_connection env s = .ok (c, s')) :
    ((s' = s ∧ s.sessionConn = some c) ∨
      (s'.sessionConn = some c ∧ s'.cacheResource = some c)) ∧
    s'.cacheData = s.cacheData ∧ s'.now = s.now ∧ s'.execs = s.execs ∧
    s'.errors = s.errors ∧ s'.shownCode = s.shownCode := by
  unfold get_connection at h
  split at h
  · rename_i s1 he
    exact absurd h (by simp)
  · rename_i c1 s1 he
    obtain ⟨e1, e2, e3, e4, e5, e6, e7⟩ := ensureSessionConn_ok env s c1 s1 he
    split at h
    · rename_i hp
      rw [Except.ok.injEq, Prod.mk.injEq] at h
      obtain ⟨hceq, hs⟩ := h
      subst hceq; subst hs
      rcases e2 with rfl | hres
      · exact ⟨Or.inl ⟨rfl, e1⟩, rfl, rfl, rfl, rfl, rfl⟩
      · exact ⟨Or.inr ⟨e1, hres⟩, e3, e4, e5, e6, e7⟩
    · rename_i hp
      split at h
      · rename_i c2 s2 hi
        rw [Except.ok.injEq, Prod.mk.injEq] at h
        obtain ⟨hceq, hs⟩ := h
        subst hceq; subst hs
        obtain ⟨i1, i2, i3, i4, i5, i6, i7⟩ := init_connection_ok env s1 c2 s2 hi
        refine ⟨Or.inr ⟨rfl, ?_⟩, ?_, ?_, ?_, ?_, ?_⟩ <;>
          simp [i1, i3.trans e3, i4.trans e4, i5.trans e5, i6.trans e6, i7.trans e7]
      · rename_i s2 hi
        exact absurd h (by simp)

theorem get_connection_err (env : Env) (s : AppState) (s' : AppState)
    (h : get_connection env s = .error s') :
    s.cacheResource = none ∧ env.connectOk = false ∧
    s'.cacheResource = none ∧ s'.sessionConn = s.sessionConn ∧
    s'.cacheData = s.cacheData ∧ s'.now = s.now ∧ s'.execs = s.execs ∧
    s'.connects = s.connects + 1 ∧
    s'.errors = s.errors ++ ["Connection Error"] := by
  unfold get_connection at h
  split at h
  · rename_i s1 he
    rw [Except.error.injEq] at h
    subst h
    exact ensureSessionConn_err env s s1 he
  · rename_i c1 s1 he
    obtain ⟨e1, e2, e3, e4, e5, e6, e7⟩ := ensureSessionConn_ok env s c1 s1 he
    split at h
    · exact absurd h (by simp)
    · rename_i hp
      split at h
      · rename_i c2 s2 hi
        exact absurd h (by simp)
      · rename_i s2 hi
        rw [Except.error.injEq] at h
        subst h
        obtain ⟨i1, i2, i3, i4, i5, i6, i7, i8, i9⟩ := init_connection_err env s1 s2 hi
        rcases e2 with rfl | hres
        · exact ⟨i1, i2, i3, i4, i5, i6, i7, i8, i9⟩
        · rw [hres] at i1; exact absurd i1 (by simp)

/-! ### Lemmas about run_query -/

theorem run_query_compute_err (env : Env) (s : AppState) (q : String) (s' : AppState)
    (h : run_query_compute env s q = .error s') :
    s.cacheResource = none ∧ env.connectOk = false ∧
    s'.cacheResource = none ∧ s'.sessionConn = s.sessionConn ∧
    s'.cacheData = s.cacheData ∧ s'.now = s.now ∧ s'.execs = s.execs ∧
    s'.connects = s.connects + 1 ∧
    s'.errors = s.errors ++ ["Connection Error"] := by
  unfold run_query_compute at h
  split at h
  · rename_i s1 hg
    rw [Except.error.injEq] at h
    subst h
    exact get_connection_err env s s1 hg
  · rename_i c0 s1 hg
    split at h <;> exact absurd h (by simp)

theorem run_query_err (env : Env) (s : AppState) (q : String) (s' : AppState)
    (h : run_query env s q = .error s') :
    cacheLookup s.cacheData q s.now = none ∧
    (s.cacheResource = none ∧ env.connectOk = false ∧
     s'.cacheResource = none ∧ s'.sessionConn = s.sessionConn ∧
     s'.cacheData = s.cacheData ∧ s'.now = s.now ∧ s'.execs = s.execs ∧
     s'.connects = s.connects + 1 ∧
     s'.errors = s.errors ++ ["Connection Error"]) := by
  unfold run_query at h
  split at h
  · exact absurd h (by simp)
  · rename_i hl
    split at h
    · rename_i s1 hc
      rw [Except.error.injEq] at h
      exact ⟨hl, h ▸ run_query_compute_err env s q s1 hc⟩
    · rename_i df0 s1 hc
      exact absurd h (by simp)

theorem run_query_hit (env : Env) (s : AppState) (q : String) (df : TabularResult)
    (hhit : cacheLookup s.cacheData q s.now = some df) :
    run_query env s q = .ok (df, s) := by
  unfold run_query
  rw [hhit]

theorem run_query_success_shape (env : Env) (s : AppState) (q : String)
    (c : Conn) (s1 : AppState)
    (hmiss : cacheLookup s.cacheData q s.now = none)
    (hconn : get_connection env s = .ok (c, s1))
    (hok : env.execOk q = true) :
    run_query env s q = .ok (env.execResult q,
      { s1 with execs := s1.execs + 1,
                cacheData := (q, env.execResult q, s1.now) :: s1.cacheData }) := by
  unfold run_query run_query_compute
  rw [hmiss, hconn, hok]
  rfl

theorem run_query_failure_shape (env : Env) (s : AppState) (q : String)
    (c : Conn) (s1 : AppState)
    (hmiss : cacheLookup s.cacheData q s.now = none)
    (hconn : get_connection env s = .ok (c, s1))
    (hfail : env.execOk q = false) :
    run_query env s q = .ok (emptyResult,
      { s1 with execs := s1.execs + 1,
                errors := s1.errors ++ ["Query Error"],
                shownCode := s1.shownCode ++ [q],
                cacheData := [(q, emptyResult, s1.now)],
                cacheResource := none }) := by
  unfold run_query run_query_compute
  rw [hmiss, hconn, hfail]
  rfl

theorem run_query_ok_cases (env : Env) (s : AppState) (q : String)
    (df : TabularResult) (s' : AppState)
    (h : run_query env s q = .ok (df, s')) :
    (cacheLookup s.cacheData q s.now = some df ∧ s' = s) ∨
    (cacheLookup s.cacheData q s.now = none ∧
      ∃ s1, run_query_compute env s q = .ok (df, s1) ∧
        s' = { s1 with cacheData := (q, df, s1.now) :: s1.cacheData }) := by
  unfold run_query at h
  split at h
  · rename_i df0 hl
    rw [Except.ok.injEq, Prod.mk.injEq] at h
    obtain ⟨hdf, hs⟩ := h
    subst hdf; subst hs
    exact Or.inl ⟨hl, rfl⟩
  · rename_i hl
    split at h
    · exact absurd h (by simp)
    · rename_i df0 s1 hc
      rw [Except.ok.injEq, Prod.mk.injEq] at h
      obtain ⟨hdf, hs⟩ := h
      subst hdf; subst hs
      exact Or.inr ⟨hl, s1, hc, rfl⟩

theorem run_query_compute_now (env : Env) (s : AppState) (q : String)
    (df : TabularResult) (s' : AppState)
    (h : run_query_compute env s q = .ok (df, s')) : s'.now = s.now := by
  unfold run_query_compute at h
  split at h
  · exact absurd h (by simp)
  · rename_i c0 s1 hg
    obtain ⟨-, -, hnow, -, -, -⟩ := get_connection_ok env s c0 s1 hg
    split at h <;>
    · rw [Except.ok.injEq, Prod.mk.injEq] at h
      obtain ⟨-, hs⟩ := h
      subst hs
      exact hnow

/-! ### Cache-lookup lemmas -/

theorem cacheLookup_fresh_head (q : String) (df : TabularResult) (t d : Nat)
    (rest : List (String × TabularResult × Nat)) (hd : d < TTL) :
    cacheLookup ((q, df, t) :: rest) q (t + d) = some df := by
  simp [cacheLookup, validEntry, Nat.add_sub_cancel_left, hd]

theorem cacheLookup_single_ne (k q : String) (df : TabularResult) (t now : Nat)
    (h : k ≠ q) : cacheLookup [(k, df, t)] q now = none := by
  simp [cacheLookup, h]

/-! ### The connection-holder invariant is preserved by every step -/

theorem get_connection_inv (env : Env) (s : AppState) (c : Conn) (s' : AppState)
    (hinv : holderInv s) (h : get_connection env s = .ok (c, s')) : holderInv s' := by
  obtain ⟨hd, -⟩ := get_connection_ok env s c s' h
  rcases hd with ⟨rfl, -⟩ | ⟨h1, h2⟩
  · exact hinv
  · intro c1 c2 hr hs
    rw [h2, Option.some.injEq] at hr
    rw [h1, Option.some.injEq] at hs
    subst hr; subst hs; rfl

theorem run_query_compute_inv (env : Env) (s : AppState) (q : String)
    (df : TabularResult) (s' : AppState)
    (hinv : holderInv s) (h : run_query_compute env s q = .ok (df, s')) :
    holderInv s' := by
  unfold run_query_compute at h
  split at h
  · exact absurd h (by simp)
  · rename_i c0 s1 hg
    have hinv1 : holderInv s1 := get_connection_inv env s c0 s1 hinv hg
    split at h
    · rw [Except.ok.injEq, Prod.mk.injEq] at h
      obtain ⟨-, hs⟩ := h
      subst hs
      intro c1 c2 hr hs2
      exact hinv1 c1 c2 hr hs2
    · rw [Except.ok.injEq, Prod.mk.injEq] at h
      obtain ⟨-, hs⟩ := h
      subst hs
      intro c1 c2 hr hs2
      exact absurd hr (by simp)

theorem step_preserves_holderInv (s s' : AppState) (h : Step s s')
    (hinv : holderInv s) : holderInv s' := by
  cases h with
  | getConnOk env c hg => exact get_connection_inv env s c s' hinv hg
  | getConnHalt env hg =>
      obtain ⟨-, -, h3, -, -, -, -, -, -⟩ := get_connection_err env s s' hg
      intro c1 c2 h1 h2
      rw [h3] at h1
      exact absurd h1 (by simp)
  | runQueryOk env q df hq =>
      rcases run_query_ok_cases env s q df s' hq with ⟨-, rfl⟩ | ⟨-, s1, hc, rfl⟩
      · exact hinv
      · have hinv1 : holderInv s1 := run_query_compute_inv env s q df s1 hinv hc
        intro c1 c2 h1 h2
        exact hinv1 c1 c2 h1 h2
  | runQueryHalt env q hq =>
      obtain ⟨-, -, -, h3, -, -, -, -, -, -⟩ := run_query_err env s q s' hq
      intro c1 c2 h1 h2
      rw [h3] at h1
      exact absurd h1 (by simp)
  | refreshStep =>
      intro c1 c2 h1 h2
      exact hinv c1 c2 h1 h2
  | advanceStep d =>
      intro c1 c2 h1 h2
      exact hinv c1 c2 h1 h2

theorem reachable_holderInv (s : AppState) (h : Reachable s) : holderInv s := by
  induction h with
  | refl =>
      intro c1 c2 h1 h2
      exact absurd h1 (by simp [initState])
  | tail hab hbc ih =>
      exact step_preserves_holderInv _ _ hbc ih

/-! ### Concrete environments and states used to instantiate the theorems -/

/-- A world in which connecting, probing and executing all succeed, and every
query returns one column with one row. -/
def envAllOk : Env := ⟨true, fun _ => true, fun _ => true, fun _ => ⟨["A"], [["1"]]⟩⟩

/-- A world in which the connection works but executing any query fails. -/
def envExecFail : Env := ⟨true, fun _ => true, fun _ => false, fun _ => emptyResult⟩

/-- A world in which no connection can be established and every probe fails. -/
def envNoConnect : Env := ⟨false, fun _ => false, fun _ => true, fun _ => emptyResult⟩

/-- A world in which every liveness probe fails but connecting would succeed. -/
def envDeadProbe : Env := ⟨true, fun _ => false, fun _ => true, fun _ => emptyResult⟩

/-- The one-column one-row result `envAllOk` returns for every query. -/
def dfW : TabularResult := ⟨["A"], [["1"]]⟩

/-- The state after one successful connection from the initial state: both the
resource cache and the session slot hold connection 0. -/
def connectedState : AppState :=
  { initState with cacheResource := some ⟨0⟩, sessionConn := some ⟨0⟩,
                   nextConnId := 1, connects := 1 }

/-- A state in which the session slot holds connection 0 but the resource
cache is empty (as after a query-failure recovery cleared it). -/
def sessionOnlyState : AppState := { initState with sessionConn := some ⟨0⟩ }

/-- The state after one successful `run_query "SELECT 1"` from the initial
state: connected, one execution, and the result cached at time 0. -/
def cachedState : AppState :=
  { connectedState with execs := 1, cacheData := [("SELECT 1", dfW, 0)] }

/-- A connected state holding one cache entry created at time 0, observed at
time 600 — exactly the TTL, so the entry has expired. -/
def expiredState : AppState :=
  { connectedState with cacheData := [("SELECT 1", dfW, 0)], now := 600 }

/-! ### The claims -/

/-- C1: when executing query `q` fails (a cache miss whose compute path
obtained a connection but whose execution raised an ordinary exception),
`run_query` reports the error and the offending query text, clears the whole
data cache and the cached connection resource as a recovery side effect, and
returns the explicitly-empty tabular result (zero columns, zero rows)
instead of propagating the exception; afterwards every other
previously-cached query string is a cache miss (only the empty result for
`q` remains stored). -/
theorem C1_failure_returns_empty_and_clears
    (env : Env) (s : AppState) (q : String) (c : Conn) (s1 : AppState)
    (hmiss : cacheLookup s.cacheData q s.now = none)
    (hconn : get_connection env s = .ok (c, s1))
    (hfail : env.execOk q = false) :
    ∃ s', run_query env s q = .ok (emptyResult, s') ∧
      emptyResult.columns = [] ∧ emptyResult.rows = [] ∧
      s'.errors = s.errors ++ ["Query Error"] ∧
      s'.shownCode = s.shownCode ++ [q] ∧
      s'.cacheData = [(q, emptyResult, s.now)] ∧
      s'.cacheResource = none ∧
      (∀ q2, q2 ≠ q → ∀ t, cacheLookup s'.cacheData q2 t = none) := by
  obtain ⟨-, -, g3, -, g5, g6⟩ := get_connection_ok env s c s1 hconn
  refine ⟨_, run_query_failure_shape env s q c s1 hmiss hconn hfail,
    rfl, rfl, ?_, ?_, ?_, rfl, ?_⟩
  · simp [g5]
  · simp [g6]
  · simp [g3]
  · intro q2 hq2 t
    simp [cacheLookup, Ne.symm hq2]

/-- Witness for C1: a failing execution from the freshly-connected initial
state returns the empty result, reports the error and query, and leaves only
the empty entry in the cache. -/
theorem C1_witness :
    ∃ s', run_query envExecFail initState "SELECT 1" = .ok (emptyResult, s') ∧
      emptyResult.columns = [] ∧ emptyResult.rows = [] ∧
      s'.errors = initState.errors ++ ["Query Error"] ∧
      s'.shownCode = initState.shownCode ++ ["SELECT 1"] ∧
      s'.cacheData = [("SELECT 1", emptyResult, initState.now)] ∧
      s'.cacheResource = none ∧
      (∀ q2, q2 ≠ "SELECT 1" → ∀ t, cacheLookup s'.cacheData q2 t = none) :=
  C1_failure_returns_empty_and_clears envExecFail initState "SELECT 1" ⟨0⟩
    connectedState rfl rfl rfl

/-- C2: a second `run_query` call for the same query string within the TTL
window, with no intervening clear, returns the structurally identical result
purely from the cache: the state is completely unchanged and the second
call's environment is arbitrary, so no connection is used and no execution
happens. -/
theorem C2_cache_hit_within_ttl
    (env env2 : Env) (s : AppState) (q : String) (df : TabularResult)
    (s' : AppState) (d : Nat)
    (hmiss : cacheLookup s.cacheData q s.now = none)
    (hrun : run_query env s q = .ok (df, s'))
    (hd : d < TTL) :
    run_query env2 (advance d s') q = .ok (df, advance d s') := by
  rcases run_query_ok_cases env s q df s' hrun with ⟨hhit, -⟩ | ⟨-, s1, hc, rfl⟩
  · rw [hmiss] at hhit
    exact absurd hhit (by simp)
  · apply run_query_hit
    exact cacheLookup_fresh_head q df s1.now d s1.cacheData hd

/-- Witness for C2: after a successful first call, a repeat 5 seconds later
succeeds with the identical result even in a world where every connection
and execution would fail — the underlying path is not re-invoked. -/
theorem C2_witness :
    run_query envNoConnect (advance 5 cachedState) "SELECT 1" =
      .ok (dfW, advance 5 cachedState) :=
  C2_cache_hit_within_ttl envAllOk envNoConnect initState "SELECT 1" dfW
    cachedState 5 rfl rfl (by decide)

/-- C3: the code violates the claim. In the state where both the session slot
and the resource cache hold connection 0, whose liveness probe fails while a
fresh connection could be created, `get_connection` returns the very same
stale handle with the state unchanged (no new connection is created: the
connect count and the fresh-id counter do not move), because the memoized
`init_connection` returns its cached handle instead of reconnecting. -/
theorem C3_probe_failure_returns_same_handle :
    envDeadProbe.probeOk ⟨0⟩ = false ∧
    envDeadProbe.connectOk = true ∧
    connectedState.sessionConn = some ⟨0⟩ ∧
    connectedState.cacheResource = some ⟨0⟩ ∧
    get_connection envDeadProbe connectedState = .ok (⟨0⟩, connectedState) :=
  ⟨rfl, rfl, rfl, rfl, rfl⟩

/-- C4 counterexample: two filter selections that differ only in the date
range produce the same query string — the date range is never interpolated
into the query, refuting the claim that changing any one of the three filter
values changes the resulting query string. -/
theorem C4_counterexample_date_range_ignored :
    transaction_query ⟨(0, 0), 0, "All"⟩ = transaction_query ⟨(5, 9), 0, "All"⟩ ∧
    FilterSpec.mk (0, 0) 0 "All" ≠ FilterSpec.mk (5, 9) 0 "All" :=
  ⟨rfl, by decide⟩

set_option maxRecDepth 8192 in
/-- C4 amended: the amount threshold and the alert-status selection are
interpolated into the query string — the string depends on exactly these two
fields, and changing either of them (amount 5000 versus 0; any two distinct
alert statuses) changes the string — while the date-range selection is never
interpolated, so changing it alone never changes the query string or the
cache key. -/
theorem C4_amended_amount_and_alert_interpolated :
    (∀ f1 f2 : FilterSpec, f1.amount_filter = f2.amount_filter →
        f1.alert_filter = f2.alert_filter →
        transaction_query f1 = transaction_query f2) ∧
    transaction_query ⟨(0, 0), 5000, "All"⟩ ≠ transaction_query ⟨(0, 0), 0, "All"⟩ ∧
    transaction_query ⟨(0, 0), 0, "Flagged Only"⟩ ≠ transaction_query ⟨(0, 0), 0, "All"⟩ ∧
    transaction_query ⟨(0, 0), 0, "Clean Only"⟩ ≠ transaction_query ⟨(0, 0), 0, "All"⟩ ∧
    transaction_query ⟨(0, 0), 0, "Flagged Only"⟩ ≠
      transaction_query ⟨(0, 0), 0, "Clean Only"⟩ := by
  refine ⟨?_, by decide, by decide, by decide, by decide⟩
  intro f1 f2 h1 h2
  unfold transaction_query
  rw [h1, h2]

set_option maxRecDepth 8192 in
/-- C5: a cache entry is valid for read exactly when less than TTL = 600
seconds have elapsed since its creation, and an entry at or past the TTL is
treated as a miss even though the cache was never cleared: the execution
path runs again (the execution counter increments). -/
theorem C5_ttl_expiry :
    TTL = 600 ∧
    (∀ (q : String) (df : TabularResult) (created now : Nat)
        (rest : List (String × TabularResult × Nat)),
        cacheLookup ((q, df, created) :: rest) q now = some df ↔
          now - created < TTL) ∧
    (∀ (env : Env) (s : AppState) (q : String) (df0 : TabularResult)
        (created : Nat) (c : Conn) (s1 : AppState),
        s.cacheData = [(q, df0, created)] →
        ¬ (s.now - created < TTL) →
        get_connection env s = .ok (c, s1) →
        env.execOk q = true →
        ∃ s', run_query env s q = .ok (env.execResult q, s') ∧
          s'.execs = s.execs + 1) := by
  refine ⟨rfl, ?_, ?_⟩
  · intro q df created now rest
    by_cases hv : now - created < TTL
    · simp [cacheLookup, validEntry, hv]
    · simp [cacheLookup, validEntry, hv]
  · intro env s q df0 created c s1 hcd hexp hconn hok
    have hmiss : cacheLookup s.cacheData q s.now = none := by
      rw [hcd]
      simp [cacheLookup, validEntry, hexp]
    obtain ⟨-, -, -, g4, -, -⟩ := get_connection_ok env s c s1 hconn
    exact ⟨_, run_query_success_shape env s q c s1 hmiss hconn hok, by simp [g4]⟩

/-- C6: the refresh action removes every cache entry regardless of remaining
TTL (the cache is empty, so every lookup misses), and the next `run_query`
for any query string re-invokes the execution path (the execution counter
increments and the fresh result is returned). -/
theorem C6_clear_all_forces_recompute :
    (∀ s : AppState, (refresh s).cacheData = []) ∧
    (∀ (q : String) (now : Nat), cacheLookup [] q now = none) ∧
    (∀ (env : Env) (s : AppState) (q : String) (c : Conn) (s1 : AppState),
        get_connection env (refresh s) = .ok (c, s1) →
        env.execOk q = true →
        ∃ s', run_query env (refresh s) q = .ok (env.execResult q, s') ∧
          s'.execs = s.execs + 1) := by
  refine ⟨fun s => rfl, fun q now => rfl, ?_⟩
  intro env s q c s1 hconn hok
  have hmiss : cacheLookup (refresh s).cacheData q (refresh s).now = none := rfl
  obtain ⟨-, -, -, g4, -, -⟩ := get_connection_ok env (refresh s) c s1 hconn
  exact ⟨_, run_query_success_shape env (refresh s) q c s1 hmiss hconn hok,
    by simp [refresh] at g4; simp [g4]⟩

set_option maxRecDepth 8192 in
/-- C7: the cache key is the literal post-interpolation query string: a
stored entry answers a lookup exactly when the key strings are equal (equal
strings share the entry, different strings never collide), and the scenario
filter combinations (amount 5000, Flagged Only) and (amount 0, All) produce
different query strings, so a result stored under one is never returned for
the other. -/
theorem C7_cache_key_is_query_string :
    (∀ (cache : List (String × TabularResult × Nat)) (q q' : String)
        (df : TabularResult) (t now : Nat),
        cacheLookup ((q, df, t) :: cache) q' now =
          if q = q' then (if validEntry now t then some df else none)
          else cacheLookup cache q' now) ∧
    transaction_query ⟨(0, 0), 5000, "Flagged Only"⟩ ≠
      transaction_query ⟨(0, 0), 0, "All"⟩ ∧
    (∀ (df : TabularResult) (t now : Nat),
        cacheLookup [(transaction_query ⟨(0, 0), 5000, "Flagged Only"⟩, df, t)]
          (transaction_query ⟨(0, 0), 0, "All"⟩) now = none) := by
  have hne : transaction_query ⟨(0, 0), 5000, "Flagged Only"⟩ ≠
      transaction_query ⟨(0, 0), 0, "All"⟩ := by decide
  exact ⟨fun cache q q' df t now => rfl, hne,
    fun df t now => cacheLookup_single_ne _ _ df t now hne⟩

/-- C8: in every state reachable from the initial state by any sequence of
operations, the resource cache and the session slot never hold two distinct
connections (at most one live connection is held); and every successful
`get_connection` call either returns the current session connection with the
state unchanged (reuse) or installs the returned connection as both the
session connection and the cached resource (replace). -/
theorem C8_connection_singleton :
    (∀ s : AppState, Reachable s → holderInv s) ∧
    (∀ (env : Env) (s : AppState) (c : Conn) (s' : AppState),
        get_connection env s = .ok (c, s') →
        (s' = s ∧ s.sessionConn = some c) ∨
          (s'.sessionConn = some c ∧ s'.cacheResource = some c)) :=
  ⟨reachable_holderInv, fun env s c s' h => (get_connection_ok env s c s' h).1⟩

/-- C9: when connection creation itself fails (the session connection's probe
fails, the resource cache is empty, and connecting is impossible), the
failure is fatal to the current operation: `run_query` halts with the script
stop (an error outcome, not a result), a user-facing connection error is
surfaced, exactly one reconnection attempt was made, no query executes, and
nothing is served from or written to the data cache. -/
theorem C9_connect_failure_is_fatal
    (env : Env) (s : AppState) (q : String) (c : Conn)
    (hmiss : cacheLookup s.cacheData q s.now = none)
    (hsess : s.sessionConn = some c)
    (hprobe : env.probeOk c = false)
    (hres : s.cacheResource = none)
    (hconn : env.connectOk = false) :
    ∃ s', run_query env s q = .error s' ∧
      s'.errors = s.errors ++ ["Connection Error"] ∧
      s'.connects = s.connects + 1 ∧
      s'.execs = s.execs ∧
      s'.cacheData = s.cacheData := by
  have hinit : init_connection env s = .error { s with
      connects := s.connects + 1
      errors := s.errors ++ ["Connection Error"]
      infos := s.infos ++ ["Please check your Snowflake credentials in .streamlit/secrets.toml"] } := by
    unfold init_connection
    rw [hres, hconn]
    rfl
  have hens : ensureSessionConn env s = .ok (c, s) := by
    unfold ensureSessionConn
    rw [hsess]
  have hget : get_connection env s = .error { s with
      connects := s.connects + 1
      errors := s.errors ++ ["Connection Error"]
      infos := s.infos ++ ["Please check your Snowflake credentials in .streamlit/secrets.toml"] } := by
    unfold get_connection
    rw [hens]
    simp only [hprobe, Bool.false_eq_true, if_false, hinit]
  refine ⟨{ s with
      connects := s.connects + 1
      errors := s.errors ++ ["Connection Error"]
      infos := s.infos ++ ["Please check your Snowflake credentials in .streamlit/secrets.toml"] },
    ?_, rfl, rfl, rfl, rfl⟩
  unfold run_query run_query_compute
  rw [hmiss, hget]

/-- Witness for C9: from the state whose session holds a dead connection and
whose resource cache is empty, in a world where connecting fails, `run_query`
halts with the connection error after exactly one connect attempt. -/
theorem C9_witness :
    ∃ s', run_query envNoConnect sessionOnlyState "SELECT 1" = .error s' ∧
      s'.errors = sessionOnlyState.errors ++ ["Connection Error"] ∧
      s'.connects = sessionOnlyState.connects + 1 ∧
      s'.execs = sessionOnlyState.execs ∧
      s'.cacheData = sessionOnlyState.cacheData :=
  C9_connect_failure_is_fatal envNoConnect sessionOnlyState "SELECT 1" ⟨0⟩
    rfl rfl rfl rfl rfl

/-- C10: the empty result returned by a failing execution is itself stored in
the cache under the query string, so any later call for the same query
within the TTL returns the cached empty result with the state unchanged, in
an arbitrary environment — without attempting to execute the query again. -/
theorem C10_failure_result_is_cached
    (env env2 : Env) (s : AppState) (q : String) (c : Conn) (s1 : AppState)
    (d : Nat)
    (hmiss : cacheLookup s.cacheData q s.now = none)
    (hconn : get_connection env s = .ok (c, s1))
    (hfail : env.execOk q = false)
    (hd : d < TTL) :
    ∃ s', run_query env s q = .ok (emptyResult, s') ∧
      run_query env2 (advance d s') q = .ok (emptyResult, advance d s') := by
  refine ⟨_, run_query_failure_shape env s q c s1 hmiss hconn hfail, ?_⟩
  apply run_query_hit
  exact cacheLookup_fresh_head q emptyResult s1.now d [] hd

/-- Witness for C10: after a failing first call from the initial state, a
repeat 42 seconds later returns the cached empty result even in a world
where every connection and execution would fail. -/
theorem C10_witness :
    ∃ s', run_query envExecFail initState "SELECT 1" = .ok (emptyResult, s') ∧
      run_query envNoConnect (advance 42 s') "SELECT 1" =
        .ok (emptyResult, advance 42 s') :=
  C10_failure_result_is_cached envExecFail envNoConnect initState "SELECT 1"
    ⟨0⟩ connectedState 42 rfl rfl rfl (by decide)

end FraudDashboard
